import Mathlib

/-!
Shallow embedding of the browser-side session and live-data layer of the
Pi-hole web interface (Login page and React context providers), together
with theorems settling the specification claims about it.

Sources embedded:
* the Login component (auth-mode probe, credential submission with double
  SHA-256 hashing in local mode, post-login navigation);
* the Status/Preferences context providers in components/common/context.tsx.

The SHA-256 function comes from the external sha.js library, so it is kept
abstract: the embedding is parameterised over a function sha256hex
standing for the composite hash-then-hex-encode step.  The API collaborator
is modelled by the list of network calls a code path issues.
-/

namespace PiholeWeb

/-! ## Login component state (part_000, class Login) -/

/-- The component state of the Login page: `state = { username: "",
password: "", error: false, cookiesEnabled: false, ldapAuth: false }`. -/
structure LoginState where
  username : String
  password : String
  error : Bool
  cookiesEnabled : Bool
  ldapAuth : Bool
deriving DecidableEq, Repr

/-- The initial component state. -/
def initialLoginState : LoginState :=
  { username := "", password := "", error := false,
    cookiesEnabled := false, ldapAuth := false }

/-- The network calls the Login component can issue through the api
collaborator: `api.checkAuthMode()`, `api.authenticate(hashedPassword)` and
`api.authenticateLdap(username, password)`. -/
inductive ApiCall where
  | checkAuthMode
  | authenticate (hashedPassword : String)
  | authenticateLdap (username : String) (password : String)
deriving DecidableEq, Repr

/-- `componentWillMount`: samples `navigator.cookieEnabled` into the state
and issues the `api.checkAuthMode()` probe.  The probe is issued
unconditionally, whatever the value of `api.loggedIn`.  Returns the updated
state and the list of network calls issued. -/
def componentWillMount (cookieEnabled : Bool) (s : LoginState) :
    LoginState × List ApiCall :=
  ((if cookieEnabled then { s with cookiesEnabled := true } else s),
    [ApiCall.checkAuthMode])

/-- Resolution of the mode probe: `this.setState({ ldapAuth: auth.mode ===
"ldap" })`. -/
def onAuthModeResolved (mode : String) (s : LoginState) : LoginState :=
  { s with ldapAuth := mode == "ldap" }

/-- `handlePasswordChange`: store the typed password in the state. -/
def handlePasswordChange (value : String) (s : LoginState) : LoginState :=
  { s with password := value }

/-- `handleUsernameChange`: store the typed username in the state. -/
def handleUsernameChange (value : String) (s : LoginState) : LoginState :=
  { s with username := value }

/-- `Login.authenticate`, submission part: in LDAP mode it issues
`api.authenticateLdap(username, password)` with the drafts unmodified; in
local mode it hashes the password draft twice (`sha("sha256")...digest("hex")`
applied to the password, then again to the resulting hex string) and issues
`api.authenticate(hashedPassword)`.  It then clears the state with
`this.setState({ password: "", error: false })`.  `sha256hex` abstracts the
sha.js hash-and-hex-encode step.  Returns the post-submission state and the
single network call issued. -/
def authenticate (sha256hex : String → String) (s : LoginState) :
    LoginState × ApiCall :=
  let call :=
    if s.ldapAuth then
      ApiCall.authenticateLdap s.username s.password
    else
      ApiCall.authenticate (sha256hex (sha256hex s.password))
  ({ s with password := "", error := false }, call)

/-- The session flag owned by the api collaborator (`api.loggedIn`). -/
structure ApiState where
  loggedIn : Bool
deriving DecidableEq, Repr

/-- The object carried by `this.props.location.state.from`: a location with
a `pathname`. -/
structure LocationRef where
  pathname : String
deriving DecidableEq, Repr

/-- `this.props.location.state`, when present: `{ from: Location }`.  The
source field name is `from`, a Lean keyword, hence `fromLocation`. -/
structure FromState where
  fromLocation : LocationRef
deriving DecidableEq, Repr

/-- Success continuation of `Login.authenticate`: sets `api.loggedIn = true`,
writes the fake cookie when `config.fakeAPI` is set, and pushes
`locationState.from.pathname` where `locationState` is
`this.props.location.state || { from: { pathname: "/" } }`.  Returns the
updated api state, the list of cookie writes, and the list of paths pushed
to `history`. -/
def onAuthSuccess (api : ApiState) (fakeAPI : Bool)
    (locationState : Option FromState) :
    ApiState × List String × List String :=
  let api := { api with loggedIn := true }
  let cookieWrites := if fakeAPI then ["user_id=;"] else []
  let locState := locationState.getD { fromLocation := { pathname := "/" } }
  (api, cookieWrites, [locState.fromLocation.pathname])

/-- Failure continuation of `Login.authenticate`:
`this.setState({ error: true })`. -/
def onAuthFailure (s : LoginState) : LoginState :=
  { s with error := true }

/-- The redirect decided at the top of `render`: if `api.loggedIn` then
`<Redirect to="/" />`, else the login form is shown (no redirect). -/
def renderRedirect (loggedIn : Bool) : Option String :=
  if loggedIn then some "/" else none

/-! ## Context providers (src/components/common/context.tsx) -/

/-- The payload of `api.getStatus`: `{ status: Status }` where `Status` is a
string enum. -/
structure ApiStatus where
  status : String
deriving DecidableEq, Repr

/-- The payload of `api.getPreferences`. -/
structure ApiPreferences where
  layout : String
  language : String
deriving DecidableEq, Repr

/-- The identity of a published `refresh` callback: either the no-op
`() => {}` baked into the context defaults, or the refresh argument that
`WithAPIData` passes to `renderOk` / `renderErr`. -/
inductive Refresh where
  | noop
  | apiDataRefresh
deriving DecidableEq, Repr

/-- Modelled from the spec: `WithAPIData` (the AsyncResource engine) is not
among the provided sources; per the spec its `refresh` callback cancels any
pending timer and issues exactly one new fetch immediately.  The context
defaults' refresh is the literal `() => {}` from context.tsx and issues
nothing.  This function counts the fetches one invocation of each callback
issues. -/
def refreshFetchCount : Refresh → Nat
  | Refresh.noop => 0
  | Refresh.apiDataRefresh => 1

/-- `StatusContextType`: `{ status, refresh }`. -/
structure StatusContextType where
  status : String
  refresh : Refresh
deriving DecidableEq, Repr

/-- `PreferencesContextType`: `{ settings, refresh }`. -/
structure PreferencesContextType where
  settings : ApiPreferences
  refresh : Refresh
deriving DecidableEq, Repr

/-- `initialStatus = { status: "unknown", refresh: () => {} }`. -/
def initialStatus : StatusContextType :=
  { status := "unknown", refresh := Refresh.noop }

/-- `initialPreferences = { settings: { layout: "boxed", language: "en" },
refresh: () => {} }`. -/
def initialPreferences : PreferencesContextType :=
  { settings := { layout := "boxed", language := "en" },
    refresh := Refresh.noop }

/-- The tri-state result of an asynchronous resource as consumed by the
providers: `Initial` (no data yet), `Ok` with the resolved value, `Err`
with the error. -/
inductive AsyncState (T : Type) (E : Type) where
  | initial
  | ok (value : T)
  | err (error : E)
deriving DecidableEq, Repr

/-- `StatusProvider`: for each state of the wrapped `WithAPIData`, the value
published into `StatusContext`.  `renderInitial` publishes `initialStatus`;
`renderOk(data, refresh)` publishes `{ status: data.status, refresh }`;
`renderErr(_, refresh)` publishes `{ status: "unknown", refresh }`. -/
def StatusProvider {E : Type} : AsyncState ApiStatus E → StatusContextType
  | AsyncState.initial => initialStatus
  | AsyncState.ok data =>
      { status := data.status, refresh := Refresh.apiDataRefresh }
  | AsyncState.err _ =>
      { status := "unknown", refresh := Refresh.apiDataRefresh }

/-- `PreferencesProvider`: `renderInitial` publishes `initialPreferences`;
`renderOk(settings, refresh)` publishes `{ settings, refresh }`;
`renderErr(_, refresh)` publishes `{ settings: { layout: "boxed",
language: "en" }, refresh }`. -/
def PreferencesProvider {E : Type} :
    AsyncState ApiPreferences E → PreferencesContextType
  | AsyncState.initial => initialPreferences
  | AsyncState.ok settings =>
      { settings := settings, refresh := Refresh.apiDataRefresh }
  | AsyncState.err _ =>
      { settings := { layout := "boxed", language := "en" },
        refresh := Refresh.apiDataRefresh }

/-! ## AsyncResource generation tokens -/

/-- Modelled from the spec: `WithAPIData` (the AsyncResource engine) is not
among the provided sources.  Per the spec, the instance keeps a
monotonically increasing generation counter; every fetch carries the
generation current at issue time as its token, and only a result whose
token matches the current generation is applied. -/
structure AsyncResource (T : Type) (E : Type) where
  generation : Nat
  state : AsyncState T E
deriving DecidableEq, Repr

/-- Events observed by one AsyncResource instance: a refresh (also covering
reconfiguration and teardown, which per the spec likewise increment the
generation and issue or discard fetches), or the resolution of a fetch
carrying the token captured when it was issued. -/
inductive ResourceEvent (T : Type) (E : Type) where
  | refresh
  | resolve (token : Nat) (result : Except E T)

/-- Modelled from the spec: a resolving fetch is applied only when its token
matches the current generation; otherwise the state is left untouched. -/
def applyResult {T E : Type} (r : AsyncResource T E) (token : Nat)
    (result : Except E T) : AsyncResource T E :=
  if token = r.generation then
    { r with
      state :=
        match result with
        | Except.ok v => AsyncState.ok v
        | Except.error e => AsyncState.err e }
  else r

/-- One step of the AsyncResource state machine. -/
def resourceStep {T E : Type} (r : AsyncResource T E) :
    ResourceEvent T E → AsyncResource T E
  | ResourceEvent.refresh => { r with generation := r.generation + 1 }
  | ResourceEvent.resolve token result => applyResult r token result

/-- Running an AsyncResource instance over a sequence of events. -/
def resourceRun {T E : Type} (r : AsyncResource T E)
    (events : List (ResourceEvent T E)) : AsyncResource T E :=
  events.foldl resourceStep r

/-! ## Helper lemmas -/

theorem applyResult_generation {T E : Type} (r : AsyncResource T E)
    (token : Nat) (result : Except E T) :
    (applyResult r token result).generation = r.generation := by
  unfold applyResult
  split <;> rfl

theorem resourceRun_generation_le {T E : Type}
    (events : List (ResourceEvent T E)) (r : AsyncResource T E) :
    r.generation ≤ (resourceRun r events).generation := by
  induction events generalizing r with
  | nil => exact Nat.le_refl _
  | cons e rest ih =>
    refine Nat.le_trans ?_ (ih (resourceStep r e))
    cases e with
    | refresh => exact Nat.le_succ _
    | resolve token result =>
      exact Nat.le_of_eq (applyResult_generation r token result).symm

/-! ## Claims -/

/-- C1: on every submission in local mode (`ldapAuth = false`) the string
passed to `api.authenticate` is the hex-encoded SHA-256 of the hex-encoded
SHA-256 of the password draft — the raw password is not part of the issued
call; on every submission in LDAP mode (`ldapAuth = true`) the username and
raw password drafts are passed unmodified to `api.authenticateLdap`. -/
theorem authenticate_payload (sha256hex : String → String) (s : LoginState) :
    (authenticate sha256hex s).2 =
      if s.ldapAuth then
        ApiCall.authenticateLdap s.username s.password
      else
        ApiCall.authenticate (sha256hex (sha256hex s.password)) := rfl

/-- C2 counterexample: mounting the controller while `api.loggedIn` is true
does issue the redirect (in `render`), but `componentWillMount` still
performs a network call — the auth-mode probe — so the mount does not
perform zero network calls. -/
theorem mount_while_loggedIn_probes :
    renderRedirect true = some "/" ∧
      (componentWillMount true initialLoginState).2 ≠ ([] : List ApiCall) := by
  exact ⟨rfl, by decide⟩

/-- C2 amended: on every mount while `api.loggedIn` is true a redirect to
the root is issued, but exactly one network call is performed, the
auth-mode probe `api.checkAuthMode()` — mount-time behaviour does not
depend on the session flag. -/
theorem mount_while_loggedIn_redirects (cookieEnabled : Bool)
    (s : LoginState) :
    renderRedirect true = some "/" ∧
      (componentWillMount cookieEnabled s).2 = [ApiCall.checkAuthMode] :=
  ⟨rfl, rfl⟩

/-- C3: the value published by each provider equals the default
(`"unknown"` for Status, `{layout:"boxed", language:"en"}` for Preferences)
in the Initial and Err states and the resolved value in the Ok state. -/
theorem provider_value_projection {E : Type} (st : AsyncState ApiStatus E)
    (pt : AsyncState ApiPreferences E) :
    (StatusProvider st).status =
      (match st with
        | AsyncState.initial => "unknown"
        | AsyncState.ok data => data.status
        | AsyncState.err _ => "unknown") ∧
    (PreferencesProvider pt).settings =
      (match pt with
        | AsyncState.initial => { layout := "boxed", language := "en" }
        | AsyncState.ok settings => settings
        | AsyncState.err _ => { layout := "boxed", language := "en" }) := by
  refine ⟨?_, ?_⟩
  · cases st <;> rfl
  · cases pt <;> rfl

/-- C4 counterexample: the SharedValue published while the underlying
resource is in the Initial state carries the context default's `() => {}`
refresh, which issues zero fetches — so `refresh` is a no-op there, contrary
to the claim that it is never one. -/
theorem initial_refresh_is_noop :
    (StatusProvider (AsyncState.initial : AsyncState ApiStatus Unit)).refresh
        = Refresh.noop ∧
      refreshFetchCount Refresh.noop = 0 :=
  ⟨rfl, rfl⟩

/-- C4 amended: in the Ok and Err states both providers publish the
`WithAPIData` refresh callback, one invocation of which issues exactly one
fetch; in the Initial state they publish the context default whose refresh
callback is the no-op `() => {}` and issues no fetch. -/
theorem published_refresh_behaviour {E : Type} (st : AsyncState ApiStatus E)
    (pt : AsyncState ApiPreferences E) :
    (StatusProvider st).refresh =
      (match st with
        | AsyncState.initial => Refresh.noop
        | AsyncState.ok _ => Refresh.apiDataRefresh
        | AsyncState.err _ => Refresh.apiDataRefresh) ∧
    (PreferencesProvider pt).refresh =
      (match pt with
        | AsyncState.initial => Refresh.noop
        | AsyncState.ok _ => Refresh.apiDataRefresh
        | AsyncState.err _ => Refresh.apiDataRefresh) ∧
    refreshFetchCount Refresh.apiDataRefresh = 1 ∧
    refreshFetchCount Refresh.noop = 0 := by
  refine ⟨?_, ?_, rfl, rfl⟩
  · cases st <;> rfl
  · cases pt <;> rfl

/-- C5: on every successful resolution of an authentication submission,
`api.loggedIn` becomes true and exactly one path is pushed to history: the
recorded `location.state.from.pathname` when present, else the root. -/
theorem success_sets_flag_and_redirects_once (api : ApiState)
    (fakeAPI : Bool) (locationState : Option FromState) :
    (onAuthSuccess api fakeAPI locationState).1.loggedIn = true ∧
    (onAuthSuccess api fakeAPI locationState).2.2 =
      (match locationState with
        | some ls => [ls.fromLocation.pathname]
        | none => ["/"]) := by
  cases locationState <;> exact ⟨rfl, rfl⟩

/-- C6: on every rejected submission the state returns to awaiting input
with `error = true` and an empty password field, and a fresh submission
from that state again issues a (mode-appropriate) authentication call — no
attempt limit. -/
theorem rejection_sets_error_and_allows_retry
    (sha256hex : String → String) (s : LoginState) :
    (onAuthFailure (authenticate sha256hex s).1).error = true ∧
    (onAuthFailure (authenticate sha256hex s).1).password = "" ∧
    (authenticate sha256hex (onAuthFailure (authenticate sha256hex s).1)).2 =
      (if s.ldapAuth then
        ApiCall.authenticateLdap s.username ""
      else
        ApiCall.authenticate (sha256hex (sha256hex ""))) :=
  ⟨rfl, rfl, rfl⟩

/-- C7: on every submission, in either mode, the password field is cleared
and the error flag reset at submission time, before the request resolves. -/
theorem submit_clears_password_and_error (sha256hex : String → String)
    (s : LoginState) :
    (authenticate sha256hex s).1.password = "" ∧
      (authenticate sha256hex s).1.error = false :=
  ⟨rfl, rfl⟩

/-- C9: the cookies-enabled signal never influences authentication: two
submissions from states differing only in `cookiesEnabled` issue the same
network call and make the same state transition (up to that untouched
field), and likewise for the failure continuation. -/
theorem cookies_flag_noninterference (sha256hex : String → String)
    (s : LoginState) (b : Bool) :
    (authenticate sha256hex { s with cookiesEnabled := b }).2 =
      (authenticate sha256hex s).2 ∧
    (authenticate sha256hex { s with cookiesEnabled := b }).1 =
      { (authenticate sha256hex s).1 with cookiesEnabled := b } ∧
    onAuthFailure { s with cookiesEnabled := b } =
      { onAuthFailure s with cookiesEnabled := b } :=
  ⟨rfl, rfl, rfl⟩

/-- C10: submission rewrites only the password and error fields; the
username (and every other field) of the draft is left unchanged, so in LDAP
mode the operator's username persists across a failed attempt. -/
theorem submit_frame_username (sha256hex : String → String)
    (s : LoginState) :
    (authenticate sha256hex s).1 = { s with password := "", error := false } :=
  rfl

/-- C8: over every sequence of events of one AsyncResource instance, the
resolution of a fetch whose token is already older than the instance's
generation never changes the instance — stale results from superseded
fetches are never applied. -/
theorem stale_result_never_applied {T E : Type} (r : AsyncResource T E)
    (events : List (ResourceEvent T E)) (token : Nat) (result : Except E T)
    (h : token < r.generation) :
    resourceStep (resourceRun r events) (ResourceEvent.resolve token result) =
      resourceRun r events := by
  have hlt : token < (resourceRun r events).generation :=
    Nat.lt_of_lt_of_le h (resourceRun_generation_le events r)
  show applyResult (resourceRun r events) token result = resourceRun r events
  unfold applyResult
  rw [if_neg (Nat.ne_of_lt hlt)]

/-- Witness for C8: a concrete stale resolution (token 0 against a resource
at generation 1, after a further refresh) leaves the resource unchanged. -/
theorem stale_result_never_applied_witness :
    (0 : Nat) <
        (AsyncResource.mk 1 AsyncState.initial : AsyncResource Nat Nat).generation ∧
      resourceStep
          (resourceRun (AsyncResource.mk 1 AsyncState.initial : AsyncResource Nat Nat)
            [ResourceEvent.refresh])
          (ResourceEvent.resolve 0 (Except.ok 5)) =
        resourceRun (AsyncResource.mk 1 AsyncState.initial : AsyncResource Nat Nat)
          [ResourceEvent.refresh] :=
  ⟨by decide,
    stale_result_never_applied (AsyncResource.mk 1 AsyncState.initial)
      [ResourceEvent.refresh] 0 (Except.ok 5) (by decide)⟩

end PiholeWeb
